import Mathlib

/-!
# ConvTranspose gradient wiring and the tensor/ndarray bridge

A shallow embedding of

* `caffe2/operators/conv_transpose_op.cc`: the operator schemas and
  `GetConvTransposeGradient::GetGradientDefs`;
* `caffe2/python/pybind_state.h`: `TensorFetcher::Fetch` and
  `TensorFeeder::Feed`.

Fallible code returns `Except String _`; code that throws after it has already
changed the state returns the state reached together with the error.  Sizes and
loop indices are natural numbers: the development covers tensors and arrays
whose element and byte counts fit the machine integer types of the source.
-/

namespace caffe2

/-! ## Operator definitions and the gradient maker -/

/-- The fields of an operator invocation record that gradient wiring reads and
writes: operator type, name, input blob names and output blob names. -/
structure OperatorDef where
  type : String
  name : String
  input : List String
  output : List String
deriving DecidableEq, Repr

/-- Arity bounds declared by an `OPERATOR_SCHEMA(...)` chain. -/
structure OpSchema where
  min_input : Nat
  max_input : Nat
  min_output : Nat
  max_output : Nat
deriving DecidableEq, Repr

/-- `OPERATOR_SCHEMA(ConvTranspose).NumInputs(3).NumOutputs(1)`. -/
def ConvTransposeSchema : OpSchema :=
  { min_input := 3, max_input := 3, min_output := 1, max_output := 1 }

/-- `OPERATOR_SCHEMA(ConvTransposeGradient).NumInputs(3).NumOutputs(2, 3)`. -/
def ConvTransposeGradientSchema : OpSchema :=
  { min_input := 3, max_input := 3, min_output := 2, max_output := 3 }

/-- Arity check of an operator definition against a schema. -/
def OpSchema.Verify (s : OpSchema) (d : OperatorDef) : Bool :=
  decide (s.min_input ≤ d.input.length) && decide (d.input.length ≤ s.max_input) &&
  decide (s.min_output ≤ d.output.length) && decide (d.output.length ≤ s.max_output)

/-- Modelled from the spec: the gradient supplied for one forward output, a
type of `GradientMakerBase` that is not part of the sources at hand.  A
gradient is absent, dense (one blob name) or sparse (indices and values). -/
inductive GradientWrapper where
  | absent
  | dense (name : String)
  | sparse (indices values : String)
deriving DecidableEq, Repr

/-- Modelled from the spec: the state of `GradientMakerBase` that
`GetGradientDefs` reads, namely the forward invocation record `def_` and the
gradients supplied for its outputs `g_output_`. -/
structure GradientMakerBase where
  def_ : OperatorDef
  g_output_ : List GradientWrapper
deriving DecidableEq, Repr

/-- Modelled from the spec: `GradientMakerBase::GradientName`, the name of the
gradient blob of a blob (`"X"` gives `"X_grad"`). -/
def GradientName (name : String) : String := name ++ "_grad"

/-- Modelled from the spec: `GradientMakerBase::I(i)`, forward input `i`; a
failed enforce when the record has no such input. -/
def GradientMakerBase.I (m : GradientMakerBase) (i : Nat) : Except String String :=
  match m.def_.input.get? i with
  | some s => .ok s
  | none => .error "(i >= 0) && (i < def_.input().size())"

/-- Modelled from the spec: `GradientMakerBase::GI(i)`, the gradient name of
forward input `i`. -/
def GradientMakerBase.GI (m : GradientMakerBase) (i : Nat) : Except String String :=
  match m.def_.input.get? i with
  | some s => .ok (GradientName s)
  | none => .error "input index out of range"

/-- Modelled from the spec: `GradientMakerBase::GO(i)`, the name of the dense
gradient supplied for forward output `i`; a failed enforce when none is. -/
def GradientMakerBase.GO (m : GradientMakerBase) (i : Nat) : Except String String :=
  match m.g_output_.get? i with
  | some (.dense g) => .ok g
  | some (.sparse _ _) => .error "Gradient of output is sparse (expected dense)."
  | _ => .error "Gradient of output is not provided!"

/-- Modelled from the spec: `GradientMakerBase::SingleGradientDef`, a list
holding the one operator definition built from its arguments. -/
def SingleGradientDef (type name : String) (inputs outputs : List String) :
    List OperatorDef :=
  [{ type := type, name := name, input := inputs, output := outputs }]

/-- `GetConvTransposeGradient::GetGradientDefs` (conv_transpose_op.cc, 57-64):
enforce three recorded inputs, then one `ConvTransposeGradient` definition with
inputs `I(0), I(1), GO(0)` and outputs `GI(1), GI(2), GI(0)`. -/
def GetConvTransposeGradient.GetGradientDefs (m : GradientMakerBase) :
    Except String (List OperatorDef) :=
  if 3 = m.def_.input.length then do
    let i0 ← m.I 0
    let i1 ← m.I 1
    let go0 ← m.GO 0
    let gi1 ← m.GI 1
    let gi2 ← m.GI 2
    let gi0 ← m.GI 0
    pure (SingleGradientDef "ConvTransposeGradient" "" [i0, i1, go0] [gi1, gi2, gi0])
  else
    .error "3 == def_.input_size()"

/-! ## Type descriptors and the type mapping -/

/-- Modelled from the spec: the internal type descriptor `TypeMeta` with its
identity-check field `id` (zero when unsupported), the element width `itemsize`
and the printable `name`. -/
structure TypeMeta where
  id : Nat
  itemsize : Nat
  name : String
deriving DecidableEq, Repr

/-- The type mapping of pybind_state.h, lines 59-60.  Only the declarations of
`CaffeToNumpyType` and `NumpyTypeToCaffe` are in the header, so the two tables
are parameters; `stringMeta` is `TypeMeta::Make<std::string>()`, the descriptor
that `mutable_data<std::string>()` installs. -/
structure TypeMapping where
  CaffeToNumpyType : TypeMeta → Int
  NumpyTypeToCaffe : Int → TypeMeta
  stringMeta : TypeMeta

/-- The numpy type number `NPY_OBJECT` of `numpy/ndarraytypes.h`. -/
def NPY_OBJECT : Int := 17

/-- The numpy type number `NPY_FLOAT` (32-bit float) of `numpy/ndarraytypes.h`. -/
def NPY_FLOAT : Int := 11

/-! ## Tensors and blobs -/

/-- A byte string: the contents of a `std::string` or of a Python bytes object. -/
abbrev ByteString := List Nat

/-- Modelled from the spec: the storage a tensor owns, raw bytes for fixed-width
element types and a sequence of strings for the string element type. -/
inductive Storage where
  | raw (bytes : List Nat)
  | strings (elems : List ByteString)
deriving DecidableEq, Repr

/-- The string elements of a storage (none for raw bytes). -/
def Storage.elems (s : Storage) : List ByteString :=
  match s with
  | .strings l => l
  | .raw _ => []

/-- Modelled from the spec: `Tensor<Context>` with its shape, element count
(negative while the tensor was never resized), element type descriptor and
storage.  The device affinity plays no part in the bytes transferred and is left
out. -/
structure Tensor where
  dims_ : List Nat
  size_ : Int
  meta_ : TypeMeta
  storage : Storage
deriving DecidableEq, Repr

/-- Modelled from the spec: the descriptor of a tensor that holds no type yet,
with identity-check field zero. -/
def TypeMeta.unset : TypeMeta := { id := 0, itemsize := 0, name := "nullptr (uninitialized)" }

/-- Modelled from the spec: a newly constructed tensor, not yet resized. -/
def Tensor.fresh : Tensor :=
  { dims_ := [], size_ := -1, meta_ := TypeMeta.unset, storage := .raw [] }

/-- Modelled from the spec: `Tensor::nbytes()`, element count times item width. -/
def Tensor.nbytes (t : Tensor) : Nat := t.size_.toNat * t.meta_.itemsize

/-- Modelled from the spec: `Tensor::raw_data()`, the bytes of the storage. -/
def Tensor.raw_data (t : Tensor) : List Nat :=
  match t.storage with
  | .raw b => b
  | .strings _ => []

/-- Modelled from the spec: `Tensor::data<std::string>()`, typed read access,
a failed enforce when the tensor does not hold strings. -/
def Tensor.data_string (t : Tensor) : Except String (List ByteString) :=
  match t.storage with
  | .strings l => .ok l
  | .raw _ => .error "Tensor type mismatch"

/-- Modelled from the spec: the byte capacity of the storage a tensor owns. -/
def Tensor.capacity (t : Tensor) : Nat :=
  match t.storage with
  | .raw b => b.length
  | .strings l => l.length * t.meta_.itemsize

/-- Modelled from the spec: `Tensor::Resize(dims)`: the shape becomes `dims`
and the element count their product; the storage is kept, with what it holds,
unless its byte capacity is insufficient for the new size, in which case it is
given up (no storage until the next `mutable_data` call). -/
def Tensor.Resize (t : Tensor) (dims : List Nat) : Tensor :=
  { t with
    dims_ := dims
    size_ := (dims.prod : Int)
    storage := if t.capacity < dims.prod * t.meta_.itemsize then .raw [] else t.storage }

/-- Modelled from the spec: `Tensor::raw_mutable_data(meta)`: installs the
descriptor and hands out newly (re)allocated storage of `size * itemsize`
bytes. -/
def Tensor.raw_mutable_data (t : Tensor) (m : TypeMeta) : Tensor :=
  { t with meta_ := m, storage := .raw (List.replicate (t.size_.toNat * m.itemsize) 0) }

/-- Modelled from the spec: `Tensor::mutable_data<std::string>()`: a tensor
that already has the string element type and still owns string storage keeps
it, old elements included; otherwise the string descriptor is installed and new
storage of `size` empty strings is allocated. -/
def Tensor.mutable_data_string (t : Tensor) (stringMeta : TypeMeta) : Tensor :=
  if t.meta_ = stringMeta then
    match t.storage with
    | .strings _ => t
    | .raw _ => { t with storage := .strings (List.replicate t.size_.toNat []) }
  else
    { t with meta_ := stringMeta, storage := .strings (List.replicate t.size_.toNat []) }

/-- Modelled from the spec: a `Blob`, holding nothing, a tensor, or a payload of
some other type. -/
inductive Blob where
  | empty
  | tensor (t : Tensor)
  | other
deriving DecidableEq, Repr

/-- Modelled from the spec: `Blob::Get<Tensor<Context>>()`, a failed enforce
when the payload is not a tensor. -/
def Blob.Get (b : Blob) : Except String Tensor :=
  match b with
  | .tensor t => .ok t
  | _ => .error "wrong type for the Blob instance"

/-- Modelled from the spec: `Blob::GetMutable<Tensor<Context>>()`, the tensor
held, or a new one replacing a payload of another type. -/
def Blob.GetMutable (b : Blob) : Tensor :=
  match b with
  | .tensor t => t
  | _ => Tensor.fresh

/-- `Context::CopyBytes(n, src, dst)`: the `n` bytes at `src`, which the
destination receives from its start.  A source shorter than `n` yields the
bytes present: a read past the end of a buffer is outside the model. -/
def CopyBytes (n : Nat) (src : List Nat) : List Nat := src.take n

/-- The device option handed to `Feed`; only its device type is named. -/
structure DeviceOption where
  device_type : Int
deriving DecidableEq, Repr

/-! ## The foreign (Python / numpy) heap -/

/-- Address of a Python object. -/
abbrev PyObjectPtr := Nat

/-- The fields of a numpy array that the bridge reads: type number, per-axis
extents, C-contiguity, and the element storage in row-major order, as bytes
(`data`, fixed-width types) or as object pointer slots (`items`, object type;
`none` is a null slot). -/
structure PyArrayObject where
  type_num : Int
  dims : List Nat
  c_contiguous : Bool
  data : List Nat
  items : List (Option PyObjectPtr)
deriving DecidableEq, Repr

/-- What a Python object is: a bytes object, a numpy array, or anything else. -/
inductive PyValue where
  | bytes (s : ByteString)
  | ndarray (a : PyArrayObject)
  | other
deriving DecidableEq, Repr

/-- The Python heap: reference count and value per address, and the next
unused address.  An object is alive while its count is positive and is freed
when the count reaches zero; a count below zero records a release of an object
that was already freed. -/
structure PyHeap where
  ob_refcnt : PyObjectPtr → Int
  value : PyObjectPtr → PyValue
  next : PyObjectPtr

/-- `Py_INCREF(p)`. -/
def Py_INCREF (h : PyHeap) (p : PyObjectPtr) : PyHeap :=
  { h with ob_refcnt := Function.update h.ob_refcnt p (h.ob_refcnt p + 1) }

/-- One reference to `p` given up: the count goes down by one. -/
def PyHeap.release (h : PyHeap) (p : PyObjectPtr) : PyHeap :=
  { h with ob_refcnt := Function.update h.ob_refcnt p (h.ob_refcnt p - 1) }

/-- The reference held by one slot given up; nothing for a null slot. -/
def PyHeap.xrelease (h : PyHeap) (s : Option PyObjectPtr) : PyHeap :=
  match s with
  | some q => h.release q
  | none => h

/-- `Py_XINCREF(p)`: `Py_INCREF` unless `p` is null. -/
def Py_XINCREF (h : PyHeap) (s : Option PyObjectPtr) : PyHeap :=
  match s with
  | some q => Py_INCREF h q
  | none => h

/-- Deallocation of a numpy array: an object array owns one reference to each
non-null element and gives it up (`PyArray_XDECREF`).  The elements the bridge
stores are bytes objects, whose own deallocation releases nothing further. -/
def array_dealloc (h : PyHeap) (a : PyArrayObject) : PyHeap :=
  if a.type_num = NPY_OBJECT then a.items.foldl PyHeap.xrelease h else h

/-- `Py_DECREF(p)`: the count goes down by one, and the object is deallocated
when it reaches zero. -/
def Py_DECREF (h : PyHeap) (p : PyObjectPtr) : PyHeap :=
  let h1 := h.release p
  if h1.ob_refcnt p = 0 then
    match h1.value p with
    | .ndarray a => array_dealloc h1 a
    | _ => h1
  else h1

/-- `Py_XDECREF(p)`: `Py_DECREF` unless `p` is null. -/
def Py_XDECREF (h : PyHeap) (p : Option PyObjectPtr) : PyHeap :=
  match p with
  | some q => Py_DECREF h q
  | none => h

/-- A new object with reference count one at the next unused address. -/
def PyHeap.alloc (h : PyHeap) (v : PyValue) : PyHeap × PyObjectPtr :=
  ({ ob_refcnt := Function.update h.ob_refcnt h.next 1
     value := Function.update h.value h.next v
     next := h.next + 1 }, h.next)

/-- The array behind a `PyArrayObject*`; the pointer type guarantees that the
object is an array, the empty array stands for the excluded case. -/
def PyHeap.array (h : PyHeap) (p : PyObjectPtr) : PyArrayObject :=
  match h.value p with
  | .ndarray a => a
  | _ => { type_num := -1, dims := [], c_contiguous := true, data := [], items := [] }

/-- `PyArray_SimpleNew(nd, dims, type_num)`: a new C-contiguous array owned by
the caller.  The storage of a fixed-width array is uninitialised, shown as no
bytes until `CopyBytes` fills it; the slots of an object array are all null. -/
def PyArray_SimpleNew (h : PyHeap) (dims : List Nat) (type_num : Int) :
    PyHeap × PyObjectPtr :=
  h.alloc (.ndarray
    { type_num := type_num, dims := dims, c_contiguous := true, data := [],
      items := if type_num = NPY_OBJECT then List.replicate dims.prod none else [] })

/-- `PyArray_GETCONTIGUOUS(m)`: a new reference to `m` itself when `m` is
C-contiguous, else a new contiguous copy of `m`; a copy of an object array
holds its own reference to every non-null element. -/
def PyArray_GETCONTIGUOUS (h : PyHeap) (m : PyObjectPtr) : PyHeap × PyObjectPtr :=
  let a := h.array m
  if a.c_contiguous then (Py_INCREF h m, m)
  else
    let h1 := if a.type_num = NPY_OBJECT then a.items.foldl Py_XINCREF h else h
    h1.alloc (.ndarray { a with c_contiguous := true })

/-- `PyBytes_FromStringAndSize(data, size)`: a new bytes object, or null when
the allocation fails (`ok = false`). -/
def PyBytes_FromStringAndSize (ok : Bool) (h : PyHeap) (s : ByteString) :
    PyHeap × Option PyObjectPtr :=
  if ok then
    let r := h.alloc (.bytes s)
    (r.1, some r.2)
  else (h, none)

/-- `PyBytes_AsStringAndSize(obj, &str, &size)` on an object (`obj` is not
null): the byte range of a bytes object, or failure (`-1`) for an object of any
other kind. -/
def PyBytes_AsStringAndSize (h : PyHeap) (obj : PyObjectPtr) : Option ByteString :=
  match h.value obj with
  | .bytes s => some s
  | _ => none

/-- Store `v` into slot `i` of the object array at `array` (`outObj[i] = v`). -/
def PyHeap.setItem (h : PyHeap) (array : PyObjectPtr) (i : Nat) (v : Option PyObjectPtr) :
    PyHeap :=
  let a := h.array array
  { h with value := Function.update h.value array (.ndarray { a with items := a.items.set i v }) }

/-- Fill the byte storage of the array at `array`. -/
def PyHeap.setData (h : PyHeap) (array : PyObjectPtr) (bytes : List Nat) : PyHeap :=
  let a := h.array array
  { h with value := Function.update h.value array (.ndarray { a with data := bytes }) }

/-! ## TensorFetcher::Fetch -/

/-- Outcome of `Fetch`: the heap reached and the array returned or the error
thrown. -/
structure FetchOutcome where
  heap : PyHeap
  result : Except String PyObjectPtr

/-- The cleanup on failure of pybind_state.h, lines 92-96, at failing index
`i`: `Py_DECREF(outObj[j])` for `j < i`, then `Py_DECREF(array)`. -/
def fetchCleanup (h : PyHeap) (array : PyObjectPtr) (i : Nat) : PyHeap :=
  let h1 := (List.range i).foldl
    (fun hh j => Py_XDECREF hh ((hh.array array).items.getD j none)) h
  Py_DECREF h1 array

/-- The element loop of pybind_state.h, lines 87-98, from index `i` with
`fuel` elements to go; `bytesOk j` tells whether the construction of element
`j` succeeds. -/
def fetchLoop (bytesOk : Nat → Bool) (str : List ByteString) (array : PyObjectPtr) :
    (fuel : Nat) → (i : Nat) → PyHeap → FetchOutcome
  | 0, _, h => { heap := h, result := .ok array }
  | fuel + 1, i, h =>
    let r := PyBytes_FromStringAndSize (bytesOk i) h (str.getD i [])
    let h1 := r.1.setItem array i r.2
    match r.2 with
    | none =>
      { heap := fetchCleanup h1 array i
        result := .error "Failed to allocate string for ndarray of strings." }
    | some _ => fetchLoop bytesOk str array fuel (i + 1) h1

/-- `TensorFetcher<Context>::Fetch` (pybind_state.h, lines 65-111). -/
def TensorFetcher.Fetch (T : TypeMapping) (bytesOk : Nat → Bool) (h : PyHeap) (blob : Blob) :
    FetchOutcome :=
  match blob.Get with
  | .error e => { heap := h, result := .error e }
  | .ok tensor =>
    if tensor.size_ < 0 then
      { heap := h, result := .error "Trying to fetch unitilized tensor" }
    else
      let npy_dims := tensor.dims_
      let numpy_type := T.CaffeToNumpyType tensor.meta_
      if numpy_type = -1 then
        { heap := h
          result := .error ("This tensor's data type is not supported: " ++
            tensor.meta_.name ++ ".") }
      else
        let r := PyArray_SimpleNew h npy_dims numpy_type
        let array := r.2
        if numpy_type = NPY_OBJECT then
          match tensor.data_string with
          | .error e => { heap := r.1, result := .error e }
          | .ok str => fetchLoop bytesOk str array tensor.size_.toNat 0 r.1
        else
          { heap := r.1.setData array (CopyBytes tensor.nbytes tensor.raw_data)
            result := .ok array }

/-! ## TensorFeeder::Feed -/

/-- How the part of `Feed` under the scope guard ends: the blob reached and
whether the code returned or threw.  `died` tells that the process was killed
instead, by the dereference of a null slot inside the string loop; no exit is
taken then, and `result` only shows where the loop stopped. -/
structure BodyOutcome where
  blob : Blob
  result : Except String Unit
  died : Bool

/-- Outcome of `Feed`: the heap and the blob reached, and whether the call
returned or threw.  When `died` is set the process was killed inside the string
loop: the call takes no exit and the other fields are not observable (they show
the state a throw at that point would have left). -/
structure FeedOutcome where
  heap : PyHeap
  blob : Blob
  result : Except String Unit
  died : Bool

/-- The element loop of pybind_state.h, lines 146-153, from index `i` with
`fuel` elements to go, over the tensor's strings `outPtr`.  The last component
is set when `input[i]` is a null slot (or lies outside the storage):
`PyBytes_AsStringAndSize` dereferences it and the process dies. -/
def feedLoop (h : PyHeap) (input : List (Option PyObjectPtr)) :
    (fuel : Nat) → (i : Nat) → List ByteString →
      List ByteString × Except String Unit × Bool
  | 0, _, outPtr => (outPtr, .ok (), false)
  | fuel + 1, i, outPtr =>
    match input.getD i none with
    | none => (outPtr, .error "null object dereferenced", true)
    | some obj =>
      match PyBytes_AsStringAndSize h obj with
      | none =>
        (outPtr, .error "Unsupported python object type passed into ndarray.", false)
      | some s => feedLoop h input fuel (i + 1) (outPtr.set i s)

/-- The body of `Feed` after the scope guard is armed (pybind_state.h, lines
122-161), on the contiguous array at `array`. -/
def feedBody (T : TypeMapping) (h : PyHeap) (array : PyObjectPtr) (blob : Blob) :
    BodyOutcome :=
  let npy_type := (h.array array).type_num
  let m := T.NumpyTypeToCaffe npy_type
  if m.id = 0 then
    { blob := blob
      result := .error ("This numpy data type is not supported: " ++ toString npy_type ++ ".")
      died := false }
  else
    let tensor := blob.GetMutable
    let dims := (h.array array).dims
    let tensor := tensor.Resize dims
    if npy_type = NPY_OBJECT then
      let input := (h.array array).items
      let tensor := tensor.mutable_data_string T.stringMeta
      let r := feedLoop h input tensor.size_.toNat 0 tensor.storage.elems
      { blob := .tensor { tensor with storage := .strings r.1 }
        result := r.2.1
        died := r.2.2 }
    else
      let tensor := tensor.raw_mutable_data m
      let bytes := CopyBytes (tensor.size_.toNat * m.itemsize) (h.array array).data
      { blob := .tensor { tensor with storage := .raw bytes }, result := .ok (), died := false }

/-- `TensorFeeder<Context>::Feed` (pybind_state.h, lines 118-162): the scope
guard `g` releases the contiguous array on every exit of the body. -/
def TensorFeeder.Feed (T : TypeMapping) (_option : DeviceOption) (h : PyHeap)
    (original_array : PyObjectPtr) (blob : Blob) : FeedOutcome :=
  let r := PyArray_GETCONTIGUOUS h original_array
  let array := r.2
  let body := feedBody T r.1 array blob
  { heap := Py_XDECREF r.1 (some array), blob := body.blob, result := body.result,
    died := body.died }

/-! ## Sample data for the concrete scenarios -/

/-- The forward invocation `ConvTranspose(X, W, b) -> Y` with the dense gradient
`Y_grad` supplied for its output. -/
def convTransposeXWb : GradientMakerBase :=
  { def_ := { type := "ConvTranspose", name := "", input := ["X", "W", "b"], output := ["Y"] }
    g_output_ := [.dense (GradientName "Y")] }

/-- The gradient invocation expected for `convTransposeXWb`. -/
def convTransposeXWbGradient : OperatorDef :=
  { type := "ConvTransposeGradient", name := "", input := ["X", "W", "Y_grad"],
    output := ["W_grad", "b_grad", "X_grad"] }

/-- A forward invocation with two recorded inputs only. -/
def convTransposeXW : GradientMakerBase :=
  { def_ := { type := "ConvTranspose", name := "", input := ["X", "W"], output := ["Y"] }
    g_output_ := [.dense (GradientName "Y")] }

/-- A heap without objects. -/
def emptyHeap : PyHeap := { ob_refcnt := fun _ => 0, value := fun _ => .other, next := 0 }

/-- Descriptor of the 32-bit float element type. -/
def floatMeta : TypeMeta := { id := 1, itemsize := 4, name := "float" }

/-- Descriptor of the string element type. -/
def stdStringMeta : TypeMeta := { id := 2, itemsize := 32, name := "std::string" }

/-- Descriptor of an element type without external analogue. -/
def complexMeta : TypeMeta := { id := 3, itemsize := 16, name := "std::complex<double>" }

/-- One instance of the two tables: float and string are mapped, both ways. -/
def sampleMapping : TypeMapping :=
  { CaffeToNumpyType := fun m =>
      if m = floatMeta then NPY_FLOAT else if m = stdStringMeta then NPY_OBJECT else -1
    NumpyTypeToCaffe := fun c =>
      if c = NPY_FLOAT then floatMeta else if c = NPY_OBJECT then stdStringMeta
      else TypeMeta.unset
    stringMeta := stdStringMeta }

/-- The little-endian bytes of the 32-bit floats 1, 2, 3, 4, 5, 6. -/
def floats123456 : List Nat :=
  [0, 0, 128, 63, 0, 0, 0, 64, 0, 0, 64, 64, 0, 0, 128, 64, 0, 0, 160, 64, 0, 0, 192, 64]

/-- The contiguous float array `[[1, 2, 3], [4, 5, 6]]`. -/
def floatArray23 : PyArrayObject :=
  { type_num := NPY_FLOAT, dims := [2, 3], c_contiguous := true, data := floats123456,
    items := [] }

/-- A heap whose only object, at address 0, is `floatArray23`. -/
def heapWithFloatArray : PyHeap :=
  { ob_refcnt := fun p => if p = 0 then 1 else 0
    value := fun p => if p = 0 then .ndarray floatArray23 else .other
    next := 1 }

/-- The float tensor `[[1, 2, 3], [4, 5, 6]]`. -/
def floatTensor23 : Tensor :=
  { dims_ := [2, 3], size_ := 6, meta_ := floatMeta, storage := .raw floats123456 }

/-- A resized tensor of an element type without external analogue. -/
def complexTensor2 : Tensor :=
  { dims_ := [2], size_ := 2, meta_ := complexMeta, storage := .raw (List.replicate 32 0) }

/-- The string tensor `["a", "b"]`. -/
def twoStrings : Tensor :=
  { dims_ := [2], size_ := 2, meta_ := stdStringMeta, storage := .strings [[97], [98]] }

/-- An object array of two elements: the bytes object at address 1 and the
object at address 2, which is not a bytes object. -/
def mixedArray : PyArrayObject :=
  { type_num := NPY_OBJECT, dims := [2], c_contiguous := true, data := [],
    items := [some 1, some 2] }

/-- A heap holding `mixedArray` at address 0, the bytes object `"a"` at address
1 and an object of another kind at address 2. -/
def heapWithMixedArray : PyHeap :=
  { ob_refcnt := fun p => if p = 0 then 1 else if p = 1 then 1 else if p = 2 then 1 else 0
    value := fun p =>
      if p = 0 then .ndarray mixedArray else if p = 1 then .bytes [97] else .other
    next := 3 }

/-- A string tensor `["x", "y"]` fed earlier. -/
def stringsXY : Tensor :=
  { dims_ := [2], size_ := 2, meta_ := stdStringMeta, storage := .strings [[120], [121]] }

/-- The heap `heapWithMixedArray` with the array at address 0 not contiguous. -/
def heapWithStridedArray : PyHeap :=
  { ob_refcnt := fun p => if p = 0 then 1 else if p = 1 then 1 else if p = 2 then 1 else 0
    value := fun p =>
      if p = 0 then .ndarray { mixedArray with c_contiguous := false }
      else if p = 1 then .bytes [97] else .other
    next := 3 }

/-! ## The gradient maker -/

theorem GetGradientDefs_eq_of_inputs (m : GradientMakerBase) (i0 i1 i2 g : String)
    (hin : m.def_.input = [i0, i1, i2]) (hgo : m.g_output_.get? 0 = some (.dense g)) :
    GetConvTransposeGradient.GetGradientDefs m =
      .ok [{ type := "ConvTransposeGradient", name := "", input := [i0, i1, g],
             output := [GradientName i1, GradientName i2, GradientName i0] }] := by
  have hgo1 : m.g_output_[0]? = some (.dense g) := by simpa using hgo
  simp [GetConvTransposeGradient.GetGradientDefs, GradientMakerBase.I, GradientMakerBase.GI,
    GradientMakerBase.GO, SingleGradientDef, hin, hgo1, bind, Except.bind, pure, Except.pure]

theorem GetGradientDefs_ok_inv (m : GradientMakerBase) (defs : List OperatorDef)
    (h : GetConvTransposeGradient.GetGradientDefs m = .ok defs) :
    ∃ i0 i1 i2 g, m.def_.input = [i0, i1, i2] ∧ m.g_output_.get? 0 = some (.dense g) := by
  by_cases h3 : 3 = m.def_.input.length
  · obtain ⟨ins, hins⟩ : ∃ ins, m.def_.input = ins := ⟨_, rfl⟩
    rw [hins] at h3
    match ins, h3 with
    | [a, b, c], _ =>
      refine ⟨a, b, c, ?_⟩
      cases hg : m.g_output_[0]? with
      | none =>
        simp [GetConvTransposeGradient.GetGradientDefs, GradientMakerBase.I,
          GradientMakerBase.GI, GradientMakerBase.GO, hins, hg, bind, Except.bind] at h
      | some w =>
        cases w with
        | dense g => exact ⟨g, hins, by simpa using hg⟩
        | absent =>
          simp [GetConvTransposeGradient.GetGradientDefs, GradientMakerBase.I,
            GradientMakerBase.GI, GradientMakerBase.GO, hins, hg, bind, Except.bind] at h
        | sparse x y =>
          simp [GetConvTransposeGradient.GetGradientDefs, GradientMakerBase.I,
            GradientMakerBase.GI, GradientMakerBase.GO, hins, hg, bind, Except.bind] at h
  · simp [GetConvTransposeGradient.GetGradientDefs, h3] at h

/-- Claim C1: with exactly three recorded inputs `i0, i1, i2` and a dense
gradient `g` supplied for output 0, `GetGradientDefs` returns exactly one
definition, of type `ConvTransposeGradient`, with inputs `[i0, i1, g]` and
outputs `[grad i1, grad i2, grad i0]`; for inputs `X, W, b` and output `Y` these
are `[X, W, Y_grad]` and `[W_grad, b_grad, X_grad]`. -/
theorem GetGradientDefs_three_inputs (m : GradientMakerBase) (i0 i1 i2 g : String)
    (hin : m.def_.input = [i0, i1, i2]) (hgo : m.g_output_.get? 0 = some (.dense g)) :
    GetConvTransposeGradient.GetGradientDefs m =
        .ok [{ type := "ConvTransposeGradient", name := "", input := [i0, i1, g],
               output := [GradientName i1, GradientName i2, GradientName i0] }] ∧
      GetConvTransposeGradient.GetGradientDefs convTransposeXWb =
        .ok [{ type := "ConvTransposeGradient", name := "", input := ["X", "W", "Y_grad"],
               output := ["W_grad", "b_grad", "X_grad"] }] :=
  ⟨GetGradientDefs_eq_of_inputs m i0 i1 i2 g hin hgo, by rfl⟩

/-- Witness of C1 at the invocation `ConvTranspose(X, W, b) -> Y`. -/
theorem GetGradientDefs_three_inputs_witness :
    convTransposeXWb.def_.input = ["X", "W", "b"] ∧
    convTransposeXWb.g_output_.get? 0 = some (.dense "Y_grad") ∧
    GetConvTransposeGradient.GetGradientDefs convTransposeXWb = .ok [convTransposeXWbGradient] :=
  ⟨by rfl, by rfl,
    (GetGradientDefs_three_inputs convTransposeXWb "X" "W" "b" "Y_grad" (by rfl) (by rfl)).2⟩

/-- Claim C2: when the number of recorded inputs is not 3, `GetGradientDefs`
fails with the enforce error and returns no list of definitions. -/
theorem GetGradientDefs_enforces_three_inputs (m : GradientMakerBase)
    (h : m.def_.input.length ≠ 3) :
    GetConvTransposeGradient.GetGradientDefs m = .error "3 == def_.input_size()" ∧
      ∀ defs, GetConvTransposeGradient.GetGradientDefs m ≠ .ok defs := by
  have h3 : ¬ (3 = m.def_.input.length) := fun e => h e.symm
  have herr : GetConvTransposeGradient.GetGradientDefs m = .error "3 == def_.input_size()" := by
    simp [GetConvTransposeGradient.GetGradientDefs, h3]
  exact ⟨herr, fun defs hd => by rw [herr] at hd; cases hd⟩

/-- Witness of C2 at a forward invocation with two recorded inputs. -/
theorem GetGradientDefs_enforces_three_inputs_witness :
    convTransposeXW.def_.input.length = 2 ∧
    GetConvTransposeGradient.GetGradientDefs convTransposeXW =
      .error "3 == def_.input_size()" ∧
    ∀ defs, GetConvTransposeGradient.GetGradientDefs convTransposeXW ≠ .ok defs :=
  ⟨by rfl, GetGradientDefs_enforces_three_inputs convTransposeXW (by decide)⟩

/-- Claim C10: every definition that `GetGradientDefs` returns has exactly 3
inputs and exactly 3 outputs, hence lies within the arity bounds of the
`ConvTransposeGradient` schema (3 inputs, 2 to 3 outputs). -/
theorem GetGradientDefs_schema_arity (m : GradientMakerBase) (defs : List OperatorDef)
    (h : GetConvTransposeGradient.GetGradientDefs m = .ok defs) :
    ∀ d ∈ defs, d.input.length = 3 ∧ d.output.length = 3 ∧
      ConvTransposeGradientSchema.min_output ≤ d.output.length ∧
      d.output.length ≤ ConvTransposeGradientSchema.max_output ∧
      ConvTransposeGradientSchema.Verify d = true := by
  obtain ⟨i0, i1, i2, g, hin, hgo⟩ := GetGradientDefs_ok_inv m defs h
  rw [GetGradientDefs_eq_of_inputs m i0 i1 i2 g hin hgo] at h
  cases h
  intro d hd
  simp at hd
  subst hd
  simp [ConvTransposeGradientSchema, OpSchema.Verify]

/-- Witness of C10 at the invocation `ConvTranspose(X, W, b) -> Y`. -/
theorem GetGradientDefs_schema_arity_witness :
    GetConvTransposeGradient.GetGradientDefs convTransposeXWb = .ok [convTransposeXWbGradient] ∧
    ∀ d ∈ [convTransposeXWbGradient],
      d.input.length = 3 ∧ d.output.length = 3 ∧
      ConvTransposeGradientSchema.min_output ≤ d.output.length ∧
      d.output.length ≤ ConvTransposeGradientSchema.max_output ∧
      ConvTransposeGradientSchema.Verify d = true :=
  ⟨by rfl, GetGradientDefs_schema_arity convTransposeXWb _ (by rfl)⟩

/-! ## Reference counts -/

theorem array_of_value (h : PyHeap) (p : PyObjectPtr) (a : PyArrayObject)
    (harr : h.value p = .ndarray a) : h.array p = a := by
  simp [PyHeap.array, harr]

theorem foldl_xincref (items : List (Option PyObjectPtr)) :
    ∀ h : PyHeap, (items.foldl Py_XINCREF h).value = h.value ∧
      (items.foldl Py_XINCREF h).next = h.next ∧
      ∀ q, (items.foldl Py_XINCREF h).ob_refcnt q = h.ob_refcnt q + items.count (some q) := by
  induction items with
  | nil => intro h; simp
  | cons s rest ih =>
    intro h
    obtain ⟨hv, hn, hc⟩ := ih (Py_XINCREF h s)
    simp only [List.foldl_cons]
    refine ⟨?_, ?_, ?_⟩
    · rw [hv]; cases s <;> simp [Py_XINCREF, Py_INCREF]
    · rw [hn]; cases s <;> simp [Py_XINCREF, Py_INCREF]
    · intro q
      rw [hc q]
      cases s with
      | none => simp [Py_XINCREF]
      | some r =>
        by_cases hrq : q = r
        · subst hrq
          simp [Py_XINCREF, Py_INCREF, List.count_cons]
          ring
        · have : ¬ r = q := fun e => hrq e.symm
          simp [Py_XINCREF, Py_INCREF, List.count_cons, Function.update, hrq, this]

theorem foldl_xrelease (items : List (Option PyObjectPtr)) :
    ∀ h : PyHeap, (items.foldl PyHeap.xrelease h).value = h.value ∧
      (items.foldl PyHeap.xrelease h).next = h.next ∧
      ∀ q, (items.foldl PyHeap.xrelease h).ob_refcnt q = h.ob_refcnt q - items.count (some q) := by
  induction items with
  | nil => intro h; simp
  | cons s rest ih =>
    intro h
    obtain ⟨hv, hn, hc⟩ := ih (h.xrelease s)
    simp only [List.foldl_cons]
    refine ⟨?_, ?_, ?_⟩
    · rw [hv]; cases s <;> simp [PyHeap.xrelease, PyHeap.release]
    · rw [hn]; cases s <;> simp [PyHeap.xrelease, PyHeap.release]
    · intro q
      rw [hc q]
      cases s with
      | none => simp [PyHeap.xrelease]
      | some r =>
        by_cases hrq : q = r
        · subst hrq
          simp [PyHeap.xrelease, PyHeap.release, List.count_cons]
          ring
        · have : ¬ r = q := fun e => hrq e.symm
          simp [PyHeap.xrelease, PyHeap.release, List.count_cons, Function.update, hrq, this]

theorem count_eq_zero_of_fresh (items : List (Option PyObjectPtr)) (n : Nat)
    (hitems : ∀ q, some q ∈ items → q < n) : items.count (some n) = 0 := by
  apply List.count_eq_zero_of_not_mem
  intro hm
  exact absurd (hitems n hm) (lt_irrefl n)

/-- On a contiguous input the guard restores every count. -/
theorem feed_heap_contiguous (h : PyHeap) (p : PyObjectPtr) (a : PyArrayObject)
    (harr : h.value p = .ndarray a) (hc : a.c_contiguous = true)
    (hlive : 0 < h.ob_refcnt p) :
    PyArray_GETCONTIGUOUS h p = (Py_INCREF h p, p) ∧
    ∀ q, (Py_DECREF (Py_INCREF h p) p).ob_refcnt q = h.ob_refcnt q := by
  refine ⟨by simp [PyArray_GETCONTIGUOUS, array_of_value h p a harr, hc], ?_⟩
  intro q
  have hne : ¬ h.ob_refcnt p = 0 := by omega
  by_cases hq : q = p
  · subst hq
    simp [Py_DECREF, Py_INCREF, PyHeap.release, hne]
  · simp [Py_DECREF, Py_INCREF, PyHeap.release, hne, Function.update, hq]

/-- The contiguous copy of an array that is not contiguous. -/
theorem getcontiguous_copy (h : PyHeap) (p : PyObjectPtr) (a : PyArrayObject)
    (harr : h.value p = .ndarray a) (hc : a.c_contiguous = false) :
    ∃ h1 : PyHeap, h1.value = h.value ∧ h1.next = h.next ∧
      (∀ q, h1.ob_refcnt q =
        h.ob_refcnt q + (if a.type_num = NPY_OBJECT then (a.items.count (some q) : Int) else 0)) ∧
      PyArray_GETCONTIGUOUS h p = h1.alloc (.ndarray { a with c_contiguous := true }) := by
  have ha := array_of_value h p a harr
  by_cases hobj : a.type_num = NPY_OBJECT
  · obtain ⟨hv, hn, hcnt⟩ := foldl_xincref a.items h
    refine ⟨a.items.foldl Py_XINCREF h, hv, hn, ?_, ?_⟩
    · intro q; simp [hcnt, hobj]
    · simp only [PyArray_GETCONTIGUOUS, ha, hc, hobj]
      simp
  · refine ⟨h, rfl, rfl, ?_, ?_⟩
    · intro q; simp [hobj]
    · simp only [PyArray_GETCONTIGUOUS, ha, hc, hobj]
      simp

/-- On an input that is not contiguous the guard frees the copy and restores
every other count. -/
theorem feed_heap_copy (h : PyHeap) (p : PyObjectPtr) (a : PyArrayObject)
    (harr : h.value p = .ndarray a) (hc : a.c_contiguous = false)
    (hitems : ∀ q, some q ∈ a.items → q < h.next) :
    (PyArray_GETCONTIGUOUS h p).2 = h.next ∧
    (PyArray_GETCONTIGUOUS h p).1.ob_refcnt h.next = 1 ∧
    (Py_DECREF (PyArray_GETCONTIGUOUS h p).1 h.next).ob_refcnt h.next = 0 ∧
    ∀ q, q ≠ h.next →
      (Py_DECREF (PyArray_GETCONTIGUOUS h p).1 h.next).ob_refcnt q = h.ob_refcnt q := by
  have ha := array_of_value h p a harr
  have hz := count_eq_zero_of_fresh a.items h.next hitems
  by_cases hobj : a.type_num = NPY_OBJECT
  · obtain ⟨hv, hn, hcnt⟩ := foldl_xincref a.items h
    refine ⟨?_, ?_, ?_, ?_⟩
    · simp [PyArray_GETCONTIGUOUS, ha, hc, hobj, PyHeap.alloc, hn]
    · simp [PyArray_GETCONTIGUOUS, ha, hc, hobj, PyHeap.alloc, hn]
    · simp [PyArray_GETCONTIGUOUS, ha, hc, hobj, PyHeap.alloc, hn, Py_DECREF, PyHeap.release,
        array_dealloc, (foldl_xrelease a.items _).2.2, hz]
    · intro q hq
      simp [PyArray_GETCONTIGUOUS, ha, hc, hobj, PyHeap.alloc, hn, Py_DECREF, PyHeap.release,
        array_dealloc, (foldl_xrelease a.items _).2.2, Function.update, hq, hcnt]
  · refine ⟨?_, ?_, ?_, ?_⟩
    · simp [PyArray_GETCONTIGUOUS, ha, hc, hobj, PyHeap.alloc]
    · simp [PyArray_GETCONTIGUOUS, ha, hc, hobj, PyHeap.alloc]
    · simp [PyArray_GETCONTIGUOUS, ha, hc, hobj, PyHeap.alloc, Py_DECREF, PyHeap.release,
        array_dealloc]
    · intro q hq
      simp [PyArray_GETCONTIGUOUS, ha, hc, hobj, PyHeap.alloc, Py_DECREF, PyHeap.release,
        array_dealloc, Function.update, hq]

/-! ## Feed and Fetch on fixed-width element types -/

theorem Feed_pod (T : TypeMapping) (opt : DeviceOption) (h : PyHeap) (p : PyObjectPtr)
    (blob : Blob) (a : PyArrayObject)
    (harr : h.value p = .ndarray a) (hc : a.c_contiguous = true)
    (hsup : (T.NumpyTypeToCaffe a.type_num).id ≠ 0) (hobj : a.type_num ≠ NPY_OBJECT) :
    (TensorFeeder.Feed T opt h p blob).result = .ok () ∧
    (TensorFeeder.Feed T opt h p blob).blob = .tensor
      { dims_ := a.dims
        size_ := (a.dims.prod : Int)
        meta_ := T.NumpyTypeToCaffe a.type_num
        storage :=
          .raw (a.data.take (a.dims.prod * (T.NumpyTypeToCaffe a.type_num).itemsize)) } := by
  have hg : PyArray_GETCONTIGUOUS h p = (Py_INCREF h p, p) := by
    simp [PyArray_GETCONTIGUOUS, array_of_value h p a harr, hc]
  have harr1 : (Py_INCREF h p).array p = a :=
    array_of_value _ p a (by simpa [Py_INCREF] using harr)
  simp [-Nat.cast_list_prod, TensorFeeder.Feed, hg, feedBody, harr1, hsup, hobj,
    Tensor.Resize, Tensor.raw_mutable_data, CopyBytes]

theorem Fetch_pod (T : TypeMapping) (bytesOk : Nat → Bool) (h : PyHeap) (t : Tensor)
    (hsize : 0 ≤ t.size_) (hsup : T.CaffeToNumpyType t.meta_ ≠ -1)
    (hobj : T.CaffeToNumpyType t.meta_ ≠ NPY_OBJECT) :
    (TensorFetcher.Fetch T bytesOk h (.tensor t)).result = .ok h.next ∧
    (TensorFetcher.Fetch T bytesOk h (.tensor t)).heap.value h.next = .ndarray
      { type_num := T.CaffeToNumpyType t.meta_
        dims := t.dims_
        c_contiguous := true
        data := t.raw_data.take t.nbytes
        items := [] } ∧
    (TensorFetcher.Fetch T bytesOk h (.tensor t)).heap.ob_refcnt h.next = 1 ∧
    (TensorFetcher.Fetch T bytesOk h (.tensor t)).heap.next = h.next + 1 ∧
    (∀ q, q ≠ h.next →
      (TensorFetcher.Fetch T bytesOk h (.tensor t)).heap.ob_refcnt q = h.ob_refcnt q ∧
      (TensorFetcher.Fetch T bytesOk h (.tensor t)).heap.value q = h.value q) := by
  have hs : ¬ t.size_ < 0 := not_lt.mpr hsize
  refine ⟨?_, ?_, ?_, ?_, ?_⟩ <;>
    simp [TensorFetcher.Fetch, Blob.Get, hs, hsup, hobj, PyArray_SimpleNew, PyHeap.alloc,
      PyHeap.setData, PyHeap.array, CopyBytes]
  intro q hq
  simp [Function.update, hq]

/-- Claim C3: for a contiguous array of a supported, non-object type code with
extents `d`, `Feed` succeeds and leaves the target tensor with shape `d`,
element type `NumpyTypeToCaffe(type code)` and contents equal to the first
`size * itemsize` bytes of the array storage, `size` the product of `d`. -/
theorem Feed_fixed_width (T : TypeMapping) (opt : DeviceOption) (h : PyHeap)
    (p : PyObjectPtr) (blob : Blob) (a : PyArrayObject)
    (harr : h.value p = .ndarray a) (hc : a.c_contiguous = true)
    (hsup : (T.NumpyTypeToCaffe a.type_num).id ≠ 0) (hobj : a.type_num ≠ NPY_OBJECT) :
    (TensorFeeder.Feed T opt h p blob).result = .ok () ∧
    (TensorFeeder.Feed T opt h p blob).blob = .tensor
      { dims_ := a.dims
        size_ := (a.dims.prod : Int)
        meta_ := T.NumpyTypeToCaffe a.type_num
        storage :=
          .raw (a.data.take (a.dims.prod * (T.NumpyTypeToCaffe a.type_num).itemsize)) } :=
  Feed_pod T opt h p blob a harr hc hsup hobj

/-- Witness of C3, the scenario of the specification: feeding the float array
`[[1, 2, 3], [4, 5, 6]]` gives a tensor of shape `[2, 3]` holding the bytes of
the six floats. -/
theorem Feed_fixed_width_witness :
    heapWithFloatArray.value 0 = .ndarray floatArray23 ∧
    (TensorFeeder.Feed sampleMapping { device_type := 0 } heapWithFloatArray 0 .empty).result
        = .ok () ∧
    (TensorFeeder.Feed sampleMapping { device_type := 0 } heapWithFloatArray 0 .empty).blob
        = .tensor floatTensor23 :=
  have hw := Feed_fixed_width sampleMapping { device_type := 0 } heapWithFloatArray 0 .empty
    floatArray23 (by rfl) (by rfl) (by decide) (by decide)
  ⟨by rfl, hw.1, hw.2.trans (by rfl)⟩

/-- Claim C4: for an initialised tensor whose element type maps to a supported
non-object type code `c`, `Fetch` succeeds and returns a newly created array
(at the next unused address, reference count one, all other objects untouched)
with the dims of the tensor, type code `c` and storage equal to the first
`nbytes` bytes of the raw data of the tensor, which are `nbytes` many when the
tensor storage covers them.  The model has no device: the same copy is made for
every context, and `Fetch` has no tensor among its results. -/
theorem Fetch_fixed_width (T : TypeMapping) (bytesOk : Nat → Bool) (h : PyHeap) (t : Tensor)
    (hsize : 0 ≤ t.size_) (hsup : T.CaffeToNumpyType t.meta_ ≠ -1)
    (hobj : T.CaffeToNumpyType t.meta_ ≠ NPY_OBJECT) :
    (TensorFetcher.Fetch T bytesOk h (.tensor t)).result = .ok h.next ∧
    (TensorFetcher.Fetch T bytesOk h (.tensor t)).heap.value h.next = .ndarray
      { type_num := T.CaffeToNumpyType t.meta_
        dims := t.dims_
        c_contiguous := true
        data := t.raw_data.take t.nbytes
        items := [] } ∧
    (t.nbytes ≤ t.raw_data.length → (t.raw_data.take t.nbytes).length = t.nbytes) ∧
    (TensorFetcher.Fetch T bytesOk h (.tensor t)).heap.ob_refcnt h.next = 1 ∧
    (TensorFetcher.Fetch T bytesOk h (.tensor t)).heap.next = h.next + 1 ∧
    (∀ q, q ≠ h.next →
      (TensorFetcher.Fetch T bytesOk h (.tensor t)).heap.ob_refcnt q = h.ob_refcnt q ∧
      (TensorFetcher.Fetch T bytesOk h (.tensor t)).heap.value q = h.value q) := by
  obtain ⟨h1, h2, h3, h4, h5⟩ := Fetch_pod T bytesOk h t hsize hsup hobj
  exact ⟨h1, h2, fun hle => by simp [hle], h3, h4, h5⟩

/-- Witness of C4 at the float tensor `[[1, 2, 3], [4, 5, 6]]`. -/
theorem Fetch_fixed_width_witness :
    (TensorFetcher.Fetch sampleMapping (fun _ => true) emptyHeap (.tensor floatTensor23)).result
      = .ok 0 ∧
    (TensorFetcher.Fetch sampleMapping (fun _ => true) emptyHeap
      (.tensor floatTensor23)).heap.value 0 = .ndarray floatArray23 :=
  have hw := Fetch_fixed_width sampleMapping (fun _ => true) emptyHeap floatTensor23
    (by decide) (by decide) (by decide)
  ⟨hw.1, hw.2.1.trans (by rfl)⟩

/-- Claim C5: for a tensor `t` of a supported fixed-width element type `T` with
`NumpyTypeToCaffe (CaffeToNumpyType T) = T`, `Fetch` succeeds and feeding its
array into any target blob (a fresh tensor in particular) succeeds and yields a
tensor with the shape, element type and first `nbytes` storage bytes of `t`;
it is `t` itself when the storage of `t` has exactly `nbytes` bytes. -/
theorem Feed_Fetch_roundtrip (T : TypeMapping) (bytesOk : Nat → Bool) (opt : DeviceOption)
    (h : PyHeap) (t : Tensor) (blob : Blob) (b : List Nat)
    (hsize : t.size_ = (t.dims_.prod : Int))
    (hsup : T.CaffeToNumpyType t.meta_ ≠ -1)
    (hobj : T.CaffeToNumpyType t.meta_ ≠ NPY_OBJECT)
    (hid : t.meta_.id ≠ 0)
    (hrt : T.NumpyTypeToCaffe (T.CaffeToNumpyType t.meta_) = t.meta_)
    (hraw : t.storage = .raw b) :
    (TensorFetcher.Fetch T bytesOk h (.tensor t)).result = .ok h.next ∧
    (TensorFeeder.Feed T opt (TensorFetcher.Fetch T bytesOk h (.tensor t)).heap h.next
        blob).result = .ok () ∧
    (TensorFeeder.Feed T opt (TensorFetcher.Fetch T bytesOk h (.tensor t)).heap h.next
        blob).blob = .tensor { t with storage := .raw (b.take t.nbytes) } ∧
    (b.length = t.nbytes →
      (TensorFeeder.Feed T opt (TensorFetcher.Fetch T bytesOk h (.tensor t)).heap h.next
        blob).blob = .tensor t) := by
  have hs0 : 0 ≤ t.size_ := by rw [hsize]; exact Int.natCast_nonneg _
  obtain ⟨hres, hval, -, -, -⟩ := Fetch_pod T bytesOk h t hs0 hsup hobj
  have hfeed := Feed_pod T opt (TensorFetcher.Fetch T bytesOk h (.tensor t)).heap h.next blob _
    hval rfl (by simpa [hrt] using hid) hobj
  have hnb : t.dims_.prod * t.meta_.itemsize = t.nbytes := by
    simp [Tensor.nbytes, hsize, -Nat.cast_list_prod]
  have hrd : t.raw_data = b := by simp [Tensor.raw_data, hraw]
  have hblob : (TensorFeeder.Feed T opt (TensorFetcher.Fetch T bytesOk h (.tensor t)).heap
      h.next blob).blob = .tensor { t with storage := .raw (b.take t.nbytes) } := by
    rw [hfeed.2]
    simp only [hrt, hnb, hrd, List.take_take, min_self, hsize]
  refine ⟨hres, hfeed.1, hblob, ?_⟩
  intro hlen
  rw [hblob, ← hlen, List.take_length]
  cases t
  simp_all

/-- Witness of C5 at the float tensor `[[1, 2, 3], [4, 5, 6]]`, fed back into
a fresh tensor. -/
theorem Feed_Fetch_roundtrip_witness :
    (TensorFeeder.Feed sampleMapping { device_type := 0 }
      (TensorFetcher.Fetch sampleMapping (fun _ => true) emptyHeap (.tensor floatTensor23)).heap
      0 (.tensor Tensor.fresh)).blob = .tensor floatTensor23 :=
  (Feed_Fetch_roundtrip sampleMapping (fun _ => true) { device_type := 0 } emptyHeap
    floatTensor23 (.tensor Tensor.fresh) floats123456 (by rfl) (by decide) (by decide)
    (by decide) (by rfl) (by rfl)).2.2.2 (by rfl)

/-! ## Fetch: unsupported types and the string rollback -/

/-- Claim C6: for every tensor that meets the precondition of `Fetch`
(initialised, size at least 0) and whose element type has no external analogue
(`CaffeToNumpyType` returns -1), `Fetch` fails with the error naming the
unsupported type, before any foreign array is allocated: the foreign heap is
what it was (no object created, the next unused address unchanged) and no array
is returned. -/
theorem Fetch_unsupported_type (T : TypeMapping) (bytesOk : Nat → Bool) (h : PyHeap)
    (t : Tensor) (hsize : 0 ≤ t.size_) (hun : T.CaffeToNumpyType t.meta_ = -1) :
    (TensorFetcher.Fetch T bytesOk h (.tensor t)).result =
      .error ("This tensor's data type is not supported: " ++ t.meta_.name ++ ".") ∧
    (TensorFetcher.Fetch T bytesOk h (.tensor t)).heap = h ∧
    (TensorFetcher.Fetch T bytesOk h (.tensor t)).heap.next = h.next ∧
    ∀ array, (TensorFetcher.Fetch T bytesOk h (.tensor t)).result ≠ .ok array := by
  have hs : ¬ t.size_ < 0 := not_lt.mpr hsize
  have hres : (TensorFetcher.Fetch T bytesOk h (.tensor t)).result =
      .error ("This tensor's data type is not supported: " ++ t.meta_.name ++ ".") := by
    simp [TensorFetcher.Fetch, Blob.Get, hs, hun]
  have hheap : (TensorFetcher.Fetch T bytesOk h (.tensor t)).heap = h := by
    simp [TensorFetcher.Fetch, Blob.Get, hs, hun]
  refine ⟨hres, hheap, by rw [hheap], ?_⟩
  intro array harr
  rw [hres] at harr
  cases harr

/-- Witness of C6 at a resized tensor of an unsupported type. -/
theorem Fetch_unsupported_type_witness :
    sampleMapping.CaffeToNumpyType complexTensor2.meta_ = -1 ∧
    (TensorFetcher.Fetch sampleMapping (fun _ => true) emptyHeap (.tensor complexTensor2)).result
      = .error "This tensor's data type is not supported: std::complex<double>." ∧
    (TensorFetcher.Fetch sampleMapping (fun _ => true) emptyHeap
      (.tensor complexTensor2)).heap.next = 0 :=
  have hw := Fetch_unsupported_type sampleMapping (fun _ => true) emptyHeap complexTensor2
    (by decide) (by decide)
  ⟨by decide, hw.1.trans (by rfl), hw.2.2.1⟩

/-- Claim C7, the code at a failing input: fetching the string tensor
`["a", "b"]` when the construction of element 1 fails.  The call fails, the
array (address 0) ends with count 0, and the bytes object built for element 0
(address 1), created by the call with one reference, ends with count -1: the
cleanup loop released it and the deallocation of the array, whose slot 0 still
points to it, released it a second time. -/
theorem Fetch_string_failure_double_release :
    (TensorFetcher.Fetch sampleMapping (fun i => i != 1) emptyHeap (.tensor twoStrings)).result
      = .error "Failed to allocate string for ndarray of strings." ∧
    (TensorFetcher.Fetch sampleMapping (fun i => i != 1) emptyHeap
      (.tensor twoStrings)).heap.value 1 = .bytes [97] ∧
    (TensorFetcher.Fetch sampleMapping (fun i => i != 1) emptyHeap
      (.tensor twoStrings)).heap.ob_refcnt 0 = 0 ∧
    (TensorFetcher.Fetch sampleMapping (fun i => i != 1) emptyHeap
      (.tensor twoStrings)).heap.ob_refcnt 1 = -1 := by
  refine ⟨by rfl, by rfl, by rfl, by rfl⟩

/-! ## Feed: the scope guard and the string loop -/

/-- Claim C8: on every exit of `Feed` (whatever its result) the contiguous
version of the input array has been released exactly once (its count is one
below the count it had when obtained), and the original array, like every
object that existed before the call, has the reference count it had before. -/
theorem Feed_releases_contiguous_once (T : TypeMapping) (opt : DeviceOption) (h : PyHeap)
    (p : PyObjectPtr) (blob : Blob) (a : PyArrayObject)
    (harr : h.value p = .ndarray a) (hlive : 0 < h.ob_refcnt p) (hp : p < h.next)
    (hitems : ∀ q, some q ∈ a.items → q < h.next) :
    (TensorFeeder.Feed T opt h p blob).heap.ob_refcnt (PyArray_GETCONTIGUOUS h p).2 =
      (PyArray_GETCONTIGUOUS h p).1.ob_refcnt (PyArray_GETCONTIGUOUS h p).2 - 1 ∧
    (TensorFeeder.Feed T opt h p blob).heap.ob_refcnt p = h.ob_refcnt p ∧
    ∀ q, q < h.next → (TensorFeeder.Feed T opt h p blob).heap.ob_refcnt q = h.ob_refcnt q := by
  have hheap : (TensorFeeder.Feed T opt h p blob).heap =
      Py_DECREF (PyArray_GETCONTIGUOUS h p).1 (PyArray_GETCONTIGUOUS h p).2 := by
    simp [TensorFeeder.Feed, Py_XDECREF]
  rw [hheap]
  cases hc : a.c_contiguous with
  | true =>
    obtain ⟨hg, hall⟩ := feed_heap_contiguous h p a harr hc hlive
    rw [hg]
    refine ⟨?_, hall p, fun q _ => hall q⟩
    simp only [hall p]
    simp [Py_INCREF]
  | false =>
    obtain ⟨h2, h1, h0, hall⟩ := feed_heap_copy h p a harr hc hitems
    rw [h2]
    exact ⟨by rw [h0, h1]; rfl, hall p (Nat.ne_of_lt hp), fun q hq => hall q (Nat.ne_of_lt hq)⟩

/-- Witness of C8 on the failure exit of the string loop: an object array that
is not contiguous and whose element 1 is no bytes object.  The copy (address 3)
ends freed and the three objects of the caller keep their counts. -/
theorem Feed_releases_contiguous_once_witness :
    (TensorFeeder.Feed sampleMapping { device_type := 0 } heapWithStridedArray 0 .empty).result
      = .error "Unsupported python object type passed into ndarray." ∧
    (PyArray_GETCONTIGUOUS heapWithStridedArray 0).2 = 3 ∧
    (TensorFeeder.Feed sampleMapping { device_type := 0 } heapWithStridedArray 0
      .empty).heap.ob_refcnt 3 = 0 ∧
    (TensorFeeder.Feed sampleMapping { device_type := 0 } heapWithStridedArray 0
      .empty).heap.ob_refcnt 0 = 1 :=
  have hw := Feed_releases_contiguous_once sampleMapping { device_type := 0 }
    heapWithStridedArray 0 .empty { mixedArray with c_contiguous := false } (by rfl)
    (by decide) (by decide) (by
      intro q hq
      simp [mixedArray] at hq
      rcases hq with hq | hq <;> subst hq <;> decide)
  ⟨by rfl, by rfl, hw.1.trans (by rfl), hw.2.1.trans (by rfl)⟩

theorem feedLoop_congr (h1 h2 : PyHeap) (input : List (Option PyObjectPtr))
    (hv : ∀ j q, input.getD j none = some q →
      PyBytes_AsStringAndSize h1 q = PyBytes_AsStringAndSize h2 q) :
    ∀ (fuel i : Nat) (out : List ByteString),
      feedLoop h1 input fuel i out = feedLoop h2 input fuel i out := by
  intro fuel
  induction fuel with
  | zero => intro i out; rfl
  | succ n ih =>
    intro i out
    simp only [feedLoop]
    cases hslot : input.getD i none with
    | none => rfl
    | some q =>
      simp only [hv i q hslot]
      cases PyBytes_AsStringAndSize h2 q with
      | none => rfl
      | some s => exact ih (i + 1) _

theorem feedBody_congr (T : TypeMapping) (h1 h2 : PyHeap) (p1 p2 : PyObjectPtr) (blob : Blob)
    (htype : (h1.array p1).type_num = (h2.array p2).type_num)
    (hdims : (h1.array p1).dims = (h2.array p2).dims)
    (hdata : (h1.array p1).data = (h2.array p2).data)
    (hitems : (h1.array p1).items = (h2.array p2).items)
    (hv : ∀ j q, (h2.array p2).items.getD j none = some q →
      PyBytes_AsStringAndSize h1 q = PyBytes_AsStringAndSize h2 q) :
    feedBody T h1 p1 blob = feedBody T h2 p2 blob := by
  simp only [feedBody, htype, hdims, hdata, hitems, feedLoop_congr h1 h2 _ hv]

theorem mem_of_getD_eq_some (items : List (Option PyObjectPtr)) (j : Nat) (q : PyObjectPtr)
    (hj : items.getD j none = some q) : some q ∈ items := by
  rw [List.getD_eq_getElem?_getD] at hj
  cases hget : items[j]? with
  | none => simp [hget] at hj
  | some o =>
    simp [hget] at hj
    subst hj
    exact List.getElem?_mem hget

/-- The body of `Feed` reads the contiguous array exactly as it would read the
array of the caller. -/
theorem feedBody_getcontiguous (T : TypeMapping) (h : PyHeap) (p : PyObjectPtr) (blob : Blob)
    (a : PyArrayObject) (harr : h.value p = .ndarray a)
    (hitems : ∀ q, some q ∈ a.items → q < h.next) :
    feedBody T (PyArray_GETCONTIGUOUS h p).1 (PyArray_GETCONTIGUOUS h p).2 blob =
      feedBody T h p blob := by
  have ha := array_of_value h p a harr
  cases hc : a.c_contiguous with
  | true =>
    have hg : PyArray_GETCONTIGUOUS h p = (Py_INCREF h p, p) := by
      simp [PyArray_GETCONTIGUOUS, ha, hc]
    rw [hg]
    exact feedBody_congr T (Py_INCREF h p) h p p blob rfl rfl rfl rfl (fun _ _ _ => rfl)
  | false =>
    obtain ⟨h1, hv1, hn1, -, hg⟩ := getcontiguous_copy h p a harr hc
    rw [hg]
    have hval : ∀ q, q < h.next →
        (h1.alloc (.ndarray { a with c_contiguous := true })).1.value q = h.value q := by
      intro q hq
      have hne : q ≠ h.next := Nat.ne_of_lt hq
      simp [PyHeap.alloc, hv1, hn1, Function.update, hne]
    have harr2 : (h1.alloc (.ndarray { a with c_contiguous := true })).1.array
        (h1.alloc (.ndarray { a with c_contiguous := true })).2 =
        { a with c_contiguous := true } := by
      simp [PyHeap.alloc, PyHeap.array]
    apply feedBody_congr
    · rw [harr2, ha]
    · rw [harr2, ha]
    · rw [harr2, ha]
    · rw [harr2, ha]
    · intro j q hj
      rw [ha] at hj
      simp [PyBytes_AsStringAndSize, hval q (hitems q (mem_of_getD_eq_some a.items j q hj))]

/-- The string loop of `Feed` up to the first element `k` whose extraction
fails: the elements before `k` are written, the others are left alone, and no
null slot is dereferenced. -/
theorem feedLoop_fails (h : PyHeap) (input : List (Option PyObjectPtr)) (s : Nat → ByteString)
    (k : Nat)
    (hfail : ∃ q, input.getD k none = some q ∧ PyBytes_AsStringAndSize h q = none) :
    ∀ (fuel i : Nat) (pre suf : List ByteString), pre.length = i → fuel ≤ suf.length →
      i ≤ k → k < i + fuel →
      (∀ j, i ≤ j → j < k →
        ∃ q, input.getD j none = some q ∧ PyBytes_AsStringAndSize h q = some (s j)) →
      feedLoop h input fuel i (pre ++ suf) =
        (pre ++ (List.range' i (k - i)).map s ++ suf.drop (k - i),
          .error "Unsupported python object type passed into ndarray.", false) := by
  intro fuel
  induction fuel with
  | zero => intro i pre suf _ _ h1 h2 _; omega
  | succ n ih =>
    intro i pre suf hpre hsuf hik hk hok
    match suf, hsuf with
    | x :: suf1, hsuf1 =>
      by_cases hi : i = k
      · subst hi
        obtain ⟨q, hq1, hq2⟩ := hfail
        simp only [feedLoop, hq1, hq2, Nat.sub_self, List.range', List.map_nil,
          List.append_nil, List.drop_zero]
      · have hlt : i < k := lt_of_le_of_ne hik hi
        obtain ⟨q, hq1, hq2⟩ := hok i (le_refl i) hlt
        have hset : (pre ++ x :: suf1).set i (s i) = (pre ++ [s i]) ++ suf1 := by
          subst hpre
          simp
        have hrec := ih (i + 1) (pre ++ [s i]) suf1 (by simp [hpre])
          (by simp at hsuf1; omega) (by omega) (by omega)
          (fun j hj1 hj2 => hok j (by omega) hj2)
        have hki : k - i = (k - (i + 1)) + 1 := by omega
        simp only [feedLoop, hq1, hq2, hset, hrec]
        rw [hki, List.range'_succ]
        simp

/-- The string storage handed out for a resized target holds at least as many
elements as the new size. -/
theorem mutable_data_string_length (t : Tensor) (dims : List Nat) (sm : TypeMeta)
    (hwidth : 0 < sm.itemsize) :
    dims.prod ≤ ((t.Resize dims).mutable_data_string sm).storage.elems.length := by
  by_cases hm : t.meta_ = sm
  · subst hm
    by_cases hcap : t.capacity < dims.prod * t.meta_.itemsize
    · simp [-Nat.cast_list_prod, Tensor.Resize, Tensor.mutable_data_string, hcap,
        Storage.elems]
    · cases hst : t.storage with
      | raw b =>
        simp [-Nat.cast_list_prod, Tensor.Resize, Tensor.mutable_data_string, hcap, hst,
          Storage.elems]
      | strings l =>
        have hle : dims.prod * t.meta_.itemsize ≤ l.length * t.meta_.itemsize := by
          simpa [Tensor.capacity, hst] using hcap
        have := Nat.le_of_mul_le_mul_right hle hwidth
        simpa [-Nat.cast_list_prod, Tensor.Resize, Tensor.mutable_data_string, hcap, hst,
          Storage.elems] using this
  · simp [-Nat.cast_list_prod, Tensor.Resize, Tensor.mutable_data_string, hm, Storage.elems]

theorem mutable_data_string_fields (t : Tensor) (dims : List Nat) (sm : TypeMeta) :
    ((t.Resize dims).mutable_data_string sm).dims_ = dims ∧
    ((t.Resize dims).mutable_data_string sm).size_ = (dims.prod : Int) ∧
    ((t.Resize dims).mutable_data_string sm).meta_ = sm := by
  by_cases hm : t.meta_ = sm
  · subst hm
    by_cases hcap : t.capacity < dims.prod * t.meta_.itemsize
    · simp [-Nat.cast_list_prod, Tensor.Resize, Tensor.mutable_data_string, hcap]
    · cases hst : t.storage <;>
        simp [-Nat.cast_list_prod, Tensor.Resize, Tensor.mutable_data_string, hcap, hst]
  · simp [-Nat.cast_list_prod, Tensor.Resize, Tensor.mutable_data_string, hm]

/-- Counterexample to C9 as stated: feeding an object array whose element 0 is
the bytes object `"a"` and whose element 1 is an object that is no bytes object
fails at index 1 with element 0 of the tensor already written from the array;
the tensor is neither in its state before the call nor resized and
unpopulated. -/
theorem Feed_string_failure_writes_earlier_elements :
    mixedArray.items.getD 1 none = some 2 ∧
    PyBytes_AsStringAndSize heapWithMixedArray 2 = none ∧
    (TensorFeeder.Feed sampleMapping { device_type := 0 } heapWithMixedArray 0 .empty).died
      = false ∧
    (TensorFeeder.Feed sampleMapping { device_type := 0 } heapWithMixedArray 0 .empty).result
      = .error "Unsupported python object type passed into ndarray." ∧
    (TensorFeeder.Feed sampleMapping { device_type := 0 } heapWithMixedArray 0 .empty).blob
      = .tensor { dims_ := [2], size_ := 2, meta_ := stdStringMeta,
                  storage := .strings [[97], []] } ∧
    (TensorFeeder.Feed sampleMapping { device_type := 0 } heapWithMixedArray 0 .empty).blob
      ≠ .empty ∧
    (TensorFeeder.Feed sampleMapping { device_type := 0 } heapWithMixedArray 0 .empty).blob
      ≠ .tensor ((Blob.empty.GetMutable.Resize [2]).mutable_data_string stdStringMeta) := by
  refine ⟨by rfl, by rfl, by rfl, by rfl, by rfl, by decide, by decide⟩

/-- Claim C9, amended: when a supported object array is fed whose elements
`0 .. k` are objects (no null slot), the elements before `k` are bytes objects
and element `k` is not, `Feed` fails with the extraction error (the process
does not die) and leaves the target tensor resized to the shape of the array,
of string type, with the elements before `k` written from the array and the
elements from `k` on not written: they are what the storage handed out by
`mutable_data` held, namely new empty strings when the target was no string
tensor, and the previous elements of the target when it was a string tensor
whose storage is reused.  The tensor is unpopulated only for `k = 0`. -/
theorem Feed_string_failure_partial (T : TypeMapping) (opt : DeviceOption) (h : PyHeap)
    (p : PyObjectPtr) (blob : Blob) (a : PyArrayObject) (s : Nat → ByteString) (k : Nat)
    (harr : h.value p = .ndarray a) (hobj : a.type_num = NPY_OBJECT)
    (hsup : (T.NumpyTypeToCaffe NPY_OBJECT).id ≠ 0)
    (hwidth : 0 < T.stringMeta.itemsize)
    (hitems : ∀ q, some q ∈ a.items → q < h.next)
    (hk : k < a.dims.prod)
    (hok : ∀ j, j < k →
      ∃ q, a.items.getD j none = some q ∧ PyBytes_AsStringAndSize h q = some (s j))
    (hfail : ∃ q, a.items.getD k none = some q ∧ PyBytes_AsStringAndSize h q = none) :
    (TensorFeeder.Feed T opt h p blob).died = false ∧
    (TensorFeeder.Feed T opt h p blob).result =
      .error "Unsupported python object type passed into ndarray." ∧
    (TensorFeeder.Feed T opt h p blob).blob = .tensor
      { dims_ := a.dims
        size_ := (a.dims.prod : Int)
        meta_ := T.stringMeta
        storage := .strings ((List.range k).map s ++
          ((blob.GetMutable.Resize a.dims).mutable_data_string
            T.stringMeta).storage.elems.drop k) } ∧
    (blob.GetMutable.meta_ ≠ T.stringMeta →
      ((blob.GetMutable.Resize a.dims).mutable_data_string T.stringMeta).storage.elems =
        List.replicate a.dims.prod []) ∧
    (∀ l, blob.GetMutable.meta_ = T.stringMeta → blob.GetMutable.storage = .strings l →
      a.dims.prod ≤ l.length →
      ((blob.GetMutable.Resize a.dims).mutable_data_string T.stringMeta).storage.elems = l) := by
  obtain ⟨hd, hsz, hmt⟩ := mutable_data_string_fields blob.GetMutable a.dims T.stringMeta
  have hlen := mutable_data_string_length blob.GetMutable a.dims T.stringMeta hwidth
  have hloop := feedLoop_fails h a.items s k hfail a.dims.prod 0 []
    ((blob.GetMutable.Resize a.dims).mutable_data_string T.stringMeta).storage.elems
    rfl hlen (Nat.zero_le k) (by omega) (fun j _ hj => hok j hj)
  simp only [List.nil_append, Nat.sub_zero] at hloop
  have hsz2 : ((blob.GetMutable.Resize a.dims).mutable_data_string T.stringMeta).size_.toNat =
      a.dims.prod := by
    rw [hsz]; exact Int.toNat_natCast _
  have hbody : feedBody T h p blob =
      { blob := .tensor
          { dims_ := a.dims
            size_ := (a.dims.prod : Int)
            meta_ := T.stringMeta
            storage := .strings ((List.range k).map s ++
              ((blob.GetMutable.Resize a.dims).mutable_data_string
                T.stringMeta).storage.elems.drop k) }
        result := .error "Unsupported python object type passed into ndarray."
        died := false } := by
    simp only [feedBody, array_of_value h p a harr, hobj, hsup, if_false, if_true, hsz2, hloop,
      hd, hsz, hmt, List.range_eq_range', Int.toNat_natCast]
  refine ⟨?_, ?_, ?_, ?_, ?_⟩
  · simp [TensorFeeder.Feed, feedBody_getcontiguous T h p blob a harr hitems, hbody]
  · simp [TensorFeeder.Feed, feedBody_getcontiguous T h p blob a harr hitems, hbody]
  · simp [TensorFeeder.Feed, feedBody_getcontiguous T h p blob a harr hitems, hbody]
  · intro hm
    simp [-Nat.cast_list_prod, Tensor.Resize, Tensor.mutable_data_string, hm, Storage.elems]
  · intro l hm hst hle
    have hcap : ¬ blob.GetMutable.capacity < a.dims.prod * T.stringMeta.itemsize := by
      simp only [Tensor.capacity, hst, hm, not_lt]
      exact Nat.mul_le_mul_right _ hle
    simp [-Nat.cast_list_prod, Tensor.Resize, Tensor.mutable_data_string, hm, hcap, hst,
      Storage.elems]

/-- Witness of the amended C9 at the object array `["a", <no bytes>]`, failing
at element 1, fed into a blob that already holds the string tensor
`["x", "y"]`: element 0 is overwritten, element 1 keeps `"y"`. -/
theorem Feed_string_failure_partial_witness :
    (TensorFeeder.Feed sampleMapping { device_type := 0 } heapWithMixedArray 0
      (.tensor stringsXY)).died = false ∧
    (TensorFeeder.Feed sampleMapping { device_type := 0 } heapWithMixedArray 0
      (.tensor stringsXY)).result
      = .error "Unsupported python object type passed into ndarray." ∧
    (TensorFeeder.Feed sampleMapping { device_type := 0 } heapWithMixedArray 0
      (.tensor stringsXY)).blob
      = .tensor { dims_ := [2], size_ := 2, meta_ := stdStringMeta,
                  storage := .strings [[97], [121]] } :=
  have hw := Feed_string_failure_partial sampleMapping { device_type := 0 } heapWithMixedArray
    0 (.tensor stringsXY) mixedArray (fun _ => [97]) 1 (by rfl) (by rfl) (by decide)
    (by decide)
    (by
      intro q hq
      simp [mixedArray] at hq
      rcases hq with hq | hq <;> subst hq <;> decide)
    (by decide)
    (by
      intro j hj
      have hj0 : j = 0 := by omega
      subst hj0
      exact ⟨1, by rfl, by rfl⟩)
    ⟨2, by rfl, by rfl⟩
  ⟨hw.1, hw.2.1, hw.2.2.1.trans (by rfl)⟩

end caffe2
